import Mathlib

/-!
Shallow embedding of the Airbyte-to-Prometheus exporter (src/main.py).

Modelling conventions:
- Python exceptions are modelled with Option: a function that can raise
  returns none exactly when the Python code raises.
- Python dicts (connection_names, last_successful_sync, defaultdicts) are
  modelled as insertion-ordered association lists with last-write-wins
  assignment, mirroring dict semantics.
- Python float time values and durations are modelled as Rat.
- The external library parsers (datetime.fromisoformat composed with
  timestamp and int, and isodate.parse_duration composed with
  total_seconds) are library code outside this repository; they are
  passed in as function parameters of type String to Option values,
  where none models the exception the library raises on malformed input.
- Missing dict keys on the JSON objects are modelled with Option fields;
  job.get(k) is Option access, job.get(k, d) is getD.
- Pythonic truthiness of a possibly missing string (used by the code in
  conditions such as if connection_id and updated_at) is the predicate
  truthy below: none and the empty string are falsy.
-/

namespace AirbytePrometheus

/-- Pythonic truthiness of a possibly missing string value. -/
def truthy : Option String → Bool
  | none => false
  | some s => !(s == "")

/-- Association list standing for a Python dict with keys of type κ. -/
abbrev Dict (κ α : Type) := List (κ × α)

/-- Dict assignment d[k] = v: overwrite in place, else append (insertion order kept). -/
def dictSet {κ α : Type} [DecidableEq κ] : Dict κ α → κ → α → Dict κ α
  | [], k, v => [(k, v)]
  | (k0, v0) :: rest, k, v =>
    if k0 = k then (k, v) :: rest else (k0, v0) :: dictSet rest k v

/-- Dict lookup d.get(k). -/
def dictGet? {κ α : Type} [DecidableEq κ] : Dict κ α → κ → Option α
  | [], _ => none
  | (k0, v0) :: rest, k => if k0 = k then some v0 else dictGet? rest k

/-- The connection_names global: connectionId (possibly missing) to display name. -/
abbrev NameMap := Dict (Option String) String

/-- Lookup used at metric emission: connection_names.get(connection_id, the string unknown). -/
def nameFor (names : NameMap) (cid : Option String) : String :=
  (dictGet? names cid).getD "unknown"

/-- External parsing library oracles. fromIso models
datetime.fromisoformat followed by timestamp and int (epoch seconds);
parseDuration models isodate.parse_duration followed by total_seconds.
A result of none models the ValueError or ISO8601Error the library raises. -/
structure ParseFns where
  fromIso : String → Option Int
  parseDuration : String → Option Rat

/-- Python str.replace over char lists, specialized to the
single-character pattern the code uses (the letter Z): every occurrence
of pat is replaced by rep, scanning left to right. -/
def replaceChar (pat : Char) (rep : List Char) : List Char → List Char
  | [] => []
  | c :: rest =>
    if c = pat then rep ++ replaceChar pat rep rest
    else c :: replaceChar pat rep rest

/-- parse_timestamp from src/main.py: replace Z with the UTC offset, then
parse with the datetime library; none models the raised ValueError. -/
def parse_timestamp (fromIso : String → Option Int) (iso_str : String) : Option Int :=
  fromIso (String.mk (replaceChar 'Z' "+00:00".data iso_str.data))

/-- One job object from the jobs endpoint; absent JSON keys are none. -/
structure Job where
  status : Option String := none
  jobType : Option String := none
  connectionId : Option String := none
  lastUpdatedAt : Option String := none
  bytesSynced : Option Int := none
  rowsSynced : Option Int := none
  duration : Option String := none
deriving DecidableEq, Repr

/-- Accumulator of the single pass over jobs in update_job_metrics,
one field per local variable of the Python function. -/
structure JobAcc where
  running_jobs : Int := 0
  pending_jobs : Int := 0
  workflow_failures : Int := 0
  successful_syncs : Int := 0
  failed_syncs : Int := 0
  last_successful_sync : Dict (Option String) Int := []
  total_bytes_synced : Int := 0
  total_rows_synced : Int := 0
  successful_sync_durations : List Rat := []
  successful_syncs_per_connection : Dict (Option String) Int := []
  failed_syncs_per_connection : Dict (Option String) Int := []
deriving DecidableEq, Repr

/-- Keep-the-maximum update of last_successful_sync: insert when the key is
absent, overwrite only when the new timestamp is strictly greater. -/
def lastSyncSet (m : Dict (Option String) Int) (k : Option String) (ts : Int) :
    Dict (Option String) Int :=
  match dictGet? m k with
  | none => dictSet m k ts
  | some old => if ts > old then dictSet m k ts else m

/-- defaultdict(int) increment: d[k] += 1. -/
def bump (m : Dict (Option String) Int) (k : Option String) : Dict (Option String) Int :=
  dictSet m k ((dictGet? m k).getD 0 + 1)

/-- Loop body of update_job_metrics for one job, translated branch by
branch from src/main.py lines 155-186; none models an exception escaping
the loop (a parse failure on lastUpdatedAt or duration). -/
def processJob (p : ParseFns) (a : JobAcc) (j : Job) : Option JobAcc :=
  let a :=
    if j.status == some "running" then { a with running_jobs := a.running_jobs + 1 }
    else if j.status == some "pending" then { a with pending_jobs := a.pending_jobs + 1 }
    else if j.status == some "failed" then { a with workflow_failures := a.workflow_failures + 1 }
    else a
  if j.jobType == some "sync" then
    if j.status == some "succeeded" then
      let a := { a with successful_syncs := a.successful_syncs + 1 }
      let step1 : Option JobAcc :=
        if truthy j.connectionId && truthy j.lastUpdatedAt then
          match parse_timestamp p.fromIso (j.lastUpdatedAt.getD "") with
          | none => none
          | some ts =>
            some { a with last_successful_sync := lastSyncSet a.last_successful_sync j.connectionId ts }
        else some a
      match step1 with
      | none => none
      | some a =>
        let a :=
          { a with
            successful_syncs_per_connection := bump a.successful_syncs_per_connection j.connectionId
            total_bytes_synced := a.total_bytes_synced + j.bytesSynced.getD 0
            total_rows_synced := a.total_rows_synced + j.rowsSynced.getD 0 }
        if truthy j.duration then
          match p.parseDuration (j.duration.getD "") with
          | none => none
          | some d =>
            some { a with successful_sync_durations := a.successful_sync_durations ++ [d] }
        else some a
    else if j.status == some "failed" then
      some { a with
              failed_syncs := a.failed_syncs + 1
              failed_syncs_per_connection := bump a.failed_syncs_per_connection j.connectionId }
    else some a
  else some a

/-- The for loop of update_job_metrics: left-to-right, an exception on any
job aborts the whole pass (none). -/
def runJobs (p : ParseFns) (a : JobAcc) : List Job → Option JobAcc
  | [] => some a
  | j :: rest =>
    match processJob p a j with
    | none => none
    | some a1 => runJobs p a1 rest

/-- Everything update_job_metrics writes to the registry after the pass:
the scalar gauges, the three per-connection dicts, and the labeled gauge
rows (connection id, resolved name, value) emitted from them. -/
structure JobMetricsOut where
  num_running_jobs : Int
  num_pending_jobs : Int
  temporal_workflow_failure : Int
  num_successful_syncs : Int
  num_failed_syncs : Int
  total_bytes_synced : Int
  total_rows_synced : Int
  avg_successful_sync_duration : Rat
  last_successful_sync : Dict (Option String) Int
  successful_syncs_per_connection : Dict (Option String) Int
  failed_syncs_per_connection : Dict (Option String) Int
  last_successful_sync_timestamp : List (Option String × String × Int)
  successful_syncs_per_connection_gauge : List (Option String × String × Int)
  failed_syncs_per_connection_gauge : List (Option String × String × Int)
deriving DecidableEq, Repr

/-- Gauge writes performed after the loop of update_job_metrics: the
average (0 when no durations were collected, the mean otherwise) and the
per-connection emission loops resolving names through connection_names. -/
def finalizeJobMetrics (names : NameMap) (a : JobAcc) : JobMetricsOut :=
  let avg : Rat :=
    if a.successful_sync_durations.isEmpty then 0
    else a.successful_sync_durations.sum / (a.successful_sync_durations.length : Rat)
  { num_running_jobs := a.running_jobs
    num_pending_jobs := a.pending_jobs
    temporal_workflow_failure := a.workflow_failures
    num_successful_syncs := a.successful_syncs
    num_failed_syncs := a.failed_syncs
    total_bytes_synced := a.total_bytes_synced
    total_rows_synced := a.total_rows_synced
    avg_successful_sync_duration := avg
    last_successful_sync := a.last_successful_sync
    successful_syncs_per_connection := a.successful_syncs_per_connection
    failed_syncs_per_connection := a.failed_syncs_per_connection
    last_successful_sync_timestamp :=
      a.last_successful_sync.map (fun e => (e.1, nameFor names e.1, e.2))
    successful_syncs_per_connection_gauge :=
      a.successful_syncs_per_connection.map (fun e => (e.1, nameFor names e.1, e.2))
    failed_syncs_per_connection_gauge :=
      a.failed_syncs_per_connection.map (fun e => (e.1, nameFor names e.1, e.2)) }

/-- update_job_metrics from src/main.py: run the pass over all jobs and,
when no exception occurred, emit every gauge write; none means an
exception escaped and no job gauge was written at all. -/
def update_job_metrics (p : ParseFns) (names : NameMap) (jobs : List Job) :
    Option JobMetricsOut :=
  (runJobs p {} jobs).map (finalizeJobMetrics names)

/-- One connection object from the connections endpoint; the two nested
shapes schedule.scheduleType and configurations.streams are flattened to
the only parts the code reads. Absent keys are none. The pfx field stands
for the prefix key of the JSON object. -/
structure Connection where
  status : Option String := none
  connectionId : Option String := none
  name : Option String := none
  sourceId : Option String := none
  destinationId : Option String := none
  scheduleType : Option String := none
  dataResidency : Option String := none
  nonBreakingSchemaUpdatesBehavior : Option String := none
  namespaceDefinition : Option String := none
  pfx : Option String := none
  createdAt : Option Int := none
  streams : List String := []
deriving DecidableEq, Repr

/-- Accumulator of the loop in update_connection_metrics: the rebuilt
connection_names dict, the active count, and the labeled gauge rows
written per connection, in source order. -/
structure ConnAcc where
  names : NameMap := []
  active_connections : Int := 0
  connection_status : List (Option String × String × String × String × String × Int) := []
  connection_info : List (Option String × String × String × String × String) := []
  connection_streams_count : List (Option String × String × Int) := []
  connection_created_at : List (Option String × String × Int) := []
deriving DecidableEq, Repr

/-- Loop body of update_connection_metrics for one connection
(src/main.py lines 224-271): defaults for missing fields, insertion into
connection_names, active count, and the four labeled gauge writes. -/
def processConnection (a : ConnAcc) (c : Connection) : ConnAcc :=
  let name := c.name.getD "unknown"
  let source_id := c.sourceId.getD "unknown"
  let destination_id := c.destinationId.getD "unknown"
  let schedule_type := c.scheduleType.getD "unknown"
  let data_residency := c.dataResidency.getD "unknown"
  let non_breaking_behavior := c.nonBreakingSchemaUpdatesBehavior.getD "unknown"
  let namespace_definition := c.namespaceDefinition.getD "unknown"
  let pfx := c.pfx.getD "unknown"
  let created_at := c.createdAt.getD 0
  let streams_count : Int := c.streams.length
  let names := dictSet a.names c.connectionId name
  let active :=
    if c.status == some "active" then a.active_connections + 1 else a.active_connections
  let status_value : Int := if c.status == some "active" then 1 else 0
  { names := names
    active_connections := active
    connection_status :=
      a.connection_status ++ [(c.connectionId, name, source_id, destination_id, schedule_type, status_value)]
    connection_info :=
      a.connection_info ++ [(c.connectionId, data_residency, non_breaking_behavior, namespace_definition, pfx)]
    connection_streams_count :=
      a.connection_streams_count ++ [(c.connectionId, name, streams_count)]
    connection_created_at :=
      a.connection_created_at ++ [(c.connectionId, name, created_at)] }

/-- Gauge writes of update_connection_metrics plus the scalar
active-connections write performed after the loop. -/
structure ConnOut where
  active_connections : Int
  connection_status : List (Option String × String × String × String × String × Int)
  connection_info : List (Option String × String × String × String × String)
  connection_streams_count : List (Option String × String × Int)
  connection_created_at : List (Option String × String × Int)
deriving DecidableEq, Repr

/-- update_connection_metrics from src/main.py: clears connection_names
(the prev argument is the dict content before the call, discarded by the
clear), then one loop iteration per connection, then the scalar gauge.
Returns the rebuilt connection_names together with the gauge writes.
The function never raises. -/
def update_connection_metrics (prev : NameMap) (connections : List Connection) :
    NameMap × ConnOut :=
  let cleared : NameMap := []
  let a := connections.foldl processConnection { names := cleared }
  (a.names,
   { active_connections := a.active_connections
     connection_status := a.connection_status
     connection_info := a.connection_info
     connection_streams_count := a.connection_streams_count
     connection_created_at := a.connection_created_at })

/-- The connection_names dict as rebuilt by update_connection_metrics. -/
def buildNames (connections : List Connection) : NameMap :=
  connections.foldl (fun m c => dictSet m c.connectionId (c.name.getD "unknown")) []

/-- update_destination_metrics: the single scalar gauge it writes. -/
def update_destination_metrics {α : Type} (destinations : List α) : Int :=
  destinations.length

/-- update_source_metrics: the single scalar gauge it writes. -/
def update_source_metrics {α : Type} (sources : List α) : Int :=
  sources.length

/-- Token manager state: the current_token and token_expiry globals.
Python time.time() floats are modelled as Rat; current_token is none
when no token was ever fetched. -/
structure TokenState where
  current_token : Option String := none
  token_expiry : Rat := 0
deriving DecidableEq, Repr

/-- Refresh condition of refresh_token_if_needed: not current_token or
time.time() at least token_expiry - 60. -/
def needs_refresh (st : TokenState) (now : Rat) : Bool :=
  !(truthy st.current_token) || (st.token_expiry - 60 ≤ now)

/-- get_new_token: the POST outcome is given as exchange; none models a
failed request (the exception is re-raised), some (tok, expires_in)
models a 2xx JSON body. On success the new expiry is now + expires_in. -/
def get_new_token (now : Rat) (exchange : Option (String × Rat)) : Option TokenState :=
  match exchange with
  | none => none
  | some (tok, expires_in) => some { current_token := some tok, token_expiry := now + expires_in }

/-- refresh_token_if_needed: perform the credential exchange exactly when
no token is held or now is within 60 seconds of expiry; otherwise keep
the state. none models the propagated exchange failure. -/
def refresh_token_if_needed (st : TokenState) (now : Rat) (exchange : Option (String × Rat)) :
    Option TokenState :=
  if needs_refresh st now then get_new_token now exchange else some st

/-- Outcome of one HTTP GET against an endpoint: err models a network
fault or a non-2xx status (raise_for_status); ok carries the decoded
JSON body, data field present or not. -/
inductive HttpResult (α : Type) where
  | err : HttpResult α
  | ok : Option (List α) → HttpResult α
deriving DecidableEq, Repr

/-- Body of the try block of fetch_airbyte_data: raise_for_status turns
err into an exception, otherwise the data field with default empty list. -/
def fetch_attempt {α : Type} : HttpResult α → Except Unit (List α)
  | .err => .error ()
  | .ok body => .ok (body.getD [])

/-- fetch_airbyte_data from src/main.py: the try/except around the GET;
every failure is caught and degraded to the empty list, so the function
always returns a list and never raises. -/
def fetch_airbyte_data {α : Type} (r : HttpResult α) : List α :=
  match fetch_attempt r with
  | .ok l => l
  | .error _ => []

/-- The external world of one poll step: the clock value and the outcome
of each outbound request the step would perform. -/
structure StepInput where
  now : Rat
  exchange : Option (String × Rat)
  jobsResp : HttpResult Job
  connsResp : HttpResult Connection
  destsResp : HttpResult Unit
  srcsResp : HttpResult Unit
deriving DecidableEq, Repr

/-- Process state across poll steps: the token globals, the
connection_names global, and the last write of each aggregator to the
gauge registry. -/
structure PollState where
  token_state : TokenState
  connection_names : NameMap
  jobGauges : JobMetricsOut
  connGauges : ConnOut
  num_destinations : Int
  num_sources : Int
deriving DecidableEq, Repr

/-- fetch_airbyte_metrics from src/main.py: one poll step. The whole body
is inside try/except, so the function is total: a token refresh failure
aborts the step before any fetch or gauge write; a failure inside
update_job_metrics aborts after the connection gauges and
connection_names were already written, leaving job, destination and
source gauges untouched. -/
def fetch_airbyte_metrics (p : ParseFns) (st : PollState) (i : StepInput) : PollState :=
  match refresh_token_if_needed st.token_state i.now i.exchange with
  | none => st
  | some tok1 =>
    let jobs := fetch_airbyte_data i.jobsResp
    let connections := fetch_airbyte_data i.connsResp
    let destinations := fetch_airbyte_data i.destsResp
    let sources := fetch_airbyte_data i.srcsResp
    let ucm := update_connection_metrics st.connection_names connections
    let names1 := ucm.1
    let connOut := ucm.2
    match update_job_metrics p names1 jobs with
    | none =>
      { st with token_state := tok1, connection_names := names1, connGauges := connOut }
    | some jobOut =>
      { token_state := tok1
        connection_names := names1
        jobGauges := jobOut
        connGauges := connOut
        num_destinations := update_destination_metrics destinations
        num_sources := update_source_metrics sources }

/-- The while True loop of main, unrolled over a list of per-cycle
external worlds: strictly sequential, one step per cycle, total. -/
def run_poll (p : ParseFns) (st : PollState) (inputs : List StepInput) : PollState :=
  inputs.foldl (fetch_airbyte_metrics p) st

/-- Selector for jobs with jobType sync and status succeeded. -/
def isSyncSucceeded (j : Job) : Bool :=
  j.jobType == some "sync" && j.status == some "succeeded"

/-- The parsed lastUpdatedAt values the code derives for one connection
id: jobs with jobType sync, status succeeded, truthy connectionId equal
to c, truthy lastUpdatedAt, and a successful timestamp parse. -/
def syncSuccTimestamps (p : ParseFns) (c : Option String) (jobs : List Job) : List Int :=
  jobs.filterMap fun j =>
    if isSyncSucceeded j && truthy j.connectionId && truthy j.lastUpdatedAt
        && (j.connectionId == c)
    then parse_timestamp p.fromIso (j.lastUpdatedAt.getD "")
    else none

/-- The duration values (in seconds) the code collects: succeeded sync
jobs carrying a truthy duration that parses. -/
def syncSuccDurations (p : ParseFns) (jobs : List Job) : List Rat :=
  jobs.filterMap fun j =>
    if isSyncSucceeded j && truthy j.duration
    then p.parseDuration (j.duration.getD "")
    else none

/-- Decides whether processing one job raises: on a succeeded sync job,
a required timestamp parse and a required duration parse must succeed. -/
def jobOk (p : ParseFns) (j : Job) : Bool :=
  !(isSyncSucceeded j)
  || ((!(truthy j.connectionId && truthy j.lastUpdatedAt)
        || (parse_timestamp p.fromIso (j.lastUpdatedAt.getD "")).isSome)
      && (!(truthy j.duration) || (p.parseDuration (j.duration.getD "")).isSome))

/-- Exception-free normal form of processJob: same updates, with a
failing parse contributing nothing. Related to processJob by
processJob_eq below: the two agree exactly when jobOk holds. -/
def applyJob (p : ParseFns) (a : JobAcc) (j : Job) : JobAcc :=
  let a :=
    if j.status == some "running" then { a with running_jobs := a.running_jobs + 1 }
    else if j.status == some "pending" then { a with pending_jobs := a.pending_jobs + 1 }
    else if j.status == some "failed" then { a with workflow_failures := a.workflow_failures + 1 }
    else a
  if j.jobType == some "sync" then
    if j.status == some "succeeded" then
      let a := { a with successful_syncs := a.successful_syncs + 1 }
      let a :=
        if truthy j.connectionId && truthy j.lastUpdatedAt then
          match parse_timestamp p.fromIso (j.lastUpdatedAt.getD "") with
          | none => a
          | some ts =>
            { a with last_successful_sync := lastSyncSet a.last_successful_sync j.connectionId ts }
        else a
      let a :=
        { a with
          successful_syncs_per_connection := bump a.successful_syncs_per_connection j.connectionId
          total_bytes_synced := a.total_bytes_synced + j.bytesSynced.getD 0
          total_rows_synced := a.total_rows_synced + j.rowsSynced.getD 0 }
      if truthy j.duration then
        match p.parseDuration (j.duration.getD "") with
        | none => a
        | some d => { a with successful_sync_durations := a.successful_sync_durations ++ [d] }
      else a
    else if j.status == some "failed" then
      { a with
          failed_syncs := a.failed_syncs + 1
          failed_syncs_per_connection := bump a.failed_syncs_per_connection j.connectionId }
    else a
  else a

/-- Effect of one job on the last_successful_sync dict in isolation. -/
def lsStep (p : ParseFns) (m : Dict (Option String) Int) (j : Job) : Dict (Option String) Int :=
  if isSyncSucceeded j && (truthy j.connectionId && truthy j.lastUpdatedAt) then
    match parse_timestamp p.fromIso (j.lastUpdatedAt.getD "") with
    | none => m
    | some ts => lastSyncSet m j.connectionId ts
  else m

/-- One step of the keep-the-maximum accumulation on an optional current
best value: mirrors the strictly-greater overwrite of the code. -/
def mergeMax (o : Option Int) (t : Int) : Option Int :=
  match o with
  | none => some t
  | some a => some (if t > a then t else a)

/-- Maximum of a list of timestamps as the code computes it, none for the
empty list. -/
def runningMax? (l : List Int) : Option Int :=
  l.foldl mergeMax none

/-!
Concrete sample data used to exercise the definitions: a parsing oracle
defined on the handful of literals that appear in the sample jobs, a
small job list covering every status of interest, and one connection. -/

/-- Sample parsing oracle: defined exactly on the sample timestamp and
duration literals, none elsewhere (a malformed field). -/
def pW : ParseFns :=
  { fromIso := fun s =>
      if s == "2023-01-01T00:00:00+00:00" then some 1672531200
      else if s == "2023-01-01T00:01:40+00:00" then some 1672531300
      else none
    parseDuration := fun s =>
      if s == "PT30S" then some 30 else if s == "PT90S" then some 90 else none }

/-- Sample succeeded sync job for connection c1, earlier timestamp. -/
def jW1 : Job :=
  { status := some "succeeded", jobType := some "sync", connectionId := some "c1",
    lastUpdatedAt := some "2023-01-01T00:00:00Z", bytesSynced := some 100,
    rowsSynced := some 10, duration := some "PT30S" }

/-- Sample succeeded sync job for connection c1, later timestamp. -/
def jW2 : Job :=
  { status := some "succeeded", jobType := some "sync", connectionId := some "c1",
    lastUpdatedAt := some "2023-01-01T00:01:40Z", bytesSynced := some 5,
    rowsSynced := some 1, duration := some "PT90S" }

/-- Sample running job. -/
def jW3 : Job := { status := some "running" }

/-- Sample pending job. -/
def jW4 : Job := { status := some "pending" }

/-- Sample failed sync job for connection c1. -/
def jW5 : Job :=
  { status := some "failed", jobType := some "sync", connectionId := some "c1" }

/-- Sample succeeded sync job with no connectionId and no lastUpdatedAt. -/
def jWmiss : Job :=
  { status := some "succeeded", jobType := some "sync", bytesSynced := some 7,
    rowsSynced := some 2 }

/-- Sample succeeded sync job whose lastUpdatedAt the oracle rejects. -/
def jWbad : Job :=
  { status := some "succeeded", jobType := some "sync", connectionId := some "c1",
    lastUpdatedAt := some "garbage" }

/-- Sample job list. -/
def jobsW : List Job := [jW1, jW2, jW3, jW4, jW5]

/-- Sample connection_names content. -/
def namesW : NameMap := [(some "c1", "Foo")]

/-- Gauge output of update_job_metrics on the sample list. -/
def mW : JobMetricsOut := finalizeJobMetrics namesW (jobsW.foldl (applyJob pW) {})

/-- Sample connection c1 named Foo. -/
def connW : Connection :=
  { status := some "active", connectionId := some "c1", name := some "Foo" }

/-- Job gauge values before any cycle ran (every gauge at zero). -/
def emptyJobOut : JobMetricsOut := finalizeJobMetrics [] {}

/-- Connection gauge values before any cycle ran. -/
def emptyConnOut : ConnOut :=
  { active_connections := 0, connection_status := [], connection_info := [],
    connection_streams_count := [], connection_created_at := [] }

/-- Sample starting process state with no token held. -/
def st0 : PollState :=
  { token_state := {}, connection_names := [], jobGauges := emptyJobOut,
    connGauges := emptyConnOut, num_destinations := 0, num_sources := 0 }

/-- Sample step input whose token exchange would fail. -/
def i0 : StepInput :=
  { now := 70, exchange := none, jobsResp := .ok (some jobsW),
    connsResp := .ok (some [connW]), destsResp := .ok none, srcsResp := .err }

/-- Sample process state holding a token far from expiry, with a stale
connection index entry from an earlier cycle. -/
def stA : PollState :=
  { token_state := { current_token := some "t", token_expiry := 190 },
    connection_names := [(some "gone", "Gone")], jobGauges := emptyJobOut,
    connGauges := emptyConnOut, num_destinations := 0, num_sources := 0 }

/-- Sample step input with all four endpoints responding. -/
def iA : StepInput :=
  { now := 70, exchange := none, jobsResp := .ok (some jobsW),
    connsResp := .ok (some [connW]), destsResp := .ok (some [(), (), (), (), ()]),
    srcsResp := .ok none }

/-! Lemmas. -/

theorem dictGet?_dictSet {κ α : Type} [DecidableEq κ] (m : Dict κ α) (k k' : κ) (v : α) :
    dictGet? (dictSet m k v) k' = if k' = k then some v else dictGet? m k' := by
  induction m with
  | nil =>
    rcases eq_or_ne k' k with rfl | h
    · simp [dictSet, dictGet?]
    · simp [dictSet, dictGet?, h, Ne.symm h]
  | cons e rest ih =>
    obtain ⟨k0, v0⟩ := e
    rcases eq_or_ne k0 k with rfl | h0
    · rcases eq_or_ne k' k0 with rfl | h1
      · simp [dictSet, dictGet?]
      · simp [dictSet, dictGet?, h1, Ne.symm h1]
    · rcases eq_or_ne k' k0 with rfl | h1
      · simp [dictSet, dictGet?, h0, Ne.symm h0]
      · simp [dictSet, dictGet?, h0, h1, Ne.symm h1, ih]

theorem dictGet?_bump (m : Dict (Option String) Int) (k k' : Option String) :
    dictGet? (bump m k) k'
      = if k' = k then some ((dictGet? m k).getD 0 + 1) else dictGet? m k' := by
  simp [bump, dictGet?_dictSet]

theorem dictGet?_lastSyncSet (m : Dict (Option String) Int) (k k' : Option String) (ts : Int) :
    dictGet? (lastSyncSet m k ts) k'
      = if k' = k then mergeMax (dictGet? m k) ts else dictGet? m k' := by
  unfold lastSyncSet mergeMax
  rcases h : dictGet? m k with _ | old
  · simp [dictGet?_dictSet, h]
  · by_cases hgt : ts > old
    · simp [hgt, dictGet?_dictSet, h]
    · simp only [if_neg hgt]
      by_cases hk : k' = k
      · subst hk; simp [h, hgt]
      · simp [hk]

theorem processJob_eq (p : ParseFns) (a : JobAcc) (j : Job) :
    processJob p a j = if jobOk p j then some (applyJob p a j) else none := by
  unfold processJob applyJob jobOk
  by_cases h1 : (j.jobType == some "sync") = true <;>
  by_cases h2 : (j.status == some "succeeded") = true <;>
  by_cases h3 : (truthy j.connectionId && truthy j.lastUpdatedAt) = true <;>
  by_cases h4 : (truthy j.duration) = true <;>
  by_cases h5 : (j.status == some "failed") = true <;>
  rcases hts : parse_timestamp p.fromIso (j.lastUpdatedAt.getD "") with _ | ts <;>
  rcases hd : p.parseDuration (j.duration.getD "") with _ | d <;>
  simp [isSyncSucceeded, h1, h2, h3, h4, h5, hts, hd]

theorem runJobs_eq (p : ParseFns) (l : List Job) (a : JobAcc) :
    runJobs p a l = if l.all (jobOk p) then some (l.foldl (applyJob p) a) else none := by
  induction l generalizing a with
  | nil => simp [runJobs]
  | cons j rest ih =>
    simp only [runJobs, processJob_eq, List.all_cons, List.foldl_cons]
    by_cases hj : jobOk p j = true
    · simp [hj, ih]
    · simp [hj]

theorem foldl_applyJob_proj {μ : Type} (p : ParseFns) (M : JobAcc → μ) (stp : μ → Job → μ)
    (h : ∀ a j, M (applyJob p a j) = stp (M a) j) (l : List Job) :
    ∀ a : JobAcc, M (l.foldl (applyJob p) a) = l.foldl stp (M a) := by
  induction l with
  | nil => intro a; simp
  | cons j rest ih => intro a; simp [List.foldl_cons, h, ih]

set_option maxHeartbeats 1000000 in
theorem applyJob_running (p : ParseFns) (a : JobAcc) (j : Job) :
    (applyJob p a j).running_jobs
      = a.running_jobs + (if j.status == some "running" then (1 : Int) else 0) := by
  unfold applyJob
  repeat' split
  all_goals simp_all

set_option maxHeartbeats 1000000 in
theorem applyJob_pending (p : ParseFns) (a : JobAcc) (j : Job) :
    (applyJob p a j).pending_jobs
      = a.pending_jobs + (if j.status == some "pending" then (1 : Int) else 0) := by
  unfold applyJob
  repeat' split
  all_goals simp_all

set_option maxHeartbeats 1000000 in
theorem applyJob_failures (p : ParseFns) (a : JobAcc) (j : Job) :
    (applyJob p a j).workflow_failures
      = a.workflow_failures + (if j.status == some "failed" then (1 : Int) else 0) := by
  unfold applyJob
  repeat' split
  all_goals simp_all

set_option maxHeartbeats 1000000 in
theorem applyJob_succ (p : ParseFns) (a : JobAcc) (j : Job) :
    (applyJob p a j).successful_syncs
      = a.successful_syncs + (if isSyncSucceeded j then (1 : Int) else 0) := by
  unfold applyJob isSyncSucceeded
  repeat' split
  all_goals simp_all

set_option maxHeartbeats 1000000 in
theorem applyJob_failedSyncs (p : ParseFns) (a : JobAcc) (j : Job) :
    (applyJob p a j).failed_syncs
      = a.failed_syncs
          + (if j.jobType == some "sync" && j.status == some "failed" then (1 : Int) else 0) := by
  unfold applyJob
  repeat' split
  all_goals simp_all

set_option maxHeartbeats 1000000 in
theorem applyJob_bytes (p : ParseFns) (a : JobAcc) (j : Job) :
    (applyJob p a j).total_bytes_synced
      = a.total_bytes_synced + (if isSyncSucceeded j then j.bytesSynced.getD 0 else 0) := by
  unfold applyJob isSyncSucceeded
  repeat' split
  all_goals simp_all

set_option maxHeartbeats 1000000 in
theorem applyJob_rows (p : ParseFns) (a : JobAcc) (j : Job) :
    (applyJob p a j).total_rows_synced
      = a.total_rows_synced + (if isSyncSucceeded j then j.rowsSynced.getD 0 else 0) := by
  unfold applyJob isSyncSucceeded
  repeat' split
  all_goals simp_all

set_option maxHeartbeats 1000000 in
theorem applyJob_durations (p : ParseFns) (a : JobAcc) (j : Job) :
    (applyJob p a j).successful_sync_durations
      = a.successful_sync_durations
          ++ (if isSyncSucceeded j && truthy j.duration
              then (p.parseDuration (j.duration.getD "")).toList else []) := by
  unfold applyJob isSyncSucceeded
  repeat' split
  all_goals simp_all

set_option maxHeartbeats 1000000 in
theorem applyJob_lastSync (p : ParseFns) (a : JobAcc) (j : Job) :
    (applyJob p a j).last_successful_sync = lsStep p a.last_successful_sync j := by
  unfold applyJob lsStep isSyncSucceeded
  repeat' split
  all_goals simp_all

set_option maxHeartbeats 1000000 in
theorem applyJob_succPerConn (p : ParseFns) (a : JobAcc) (j : Job) :
    (applyJob p a j).successful_syncs_per_connection
      = (if isSyncSucceeded j
         then bump a.successful_syncs_per_connection j.connectionId
         else a.successful_syncs_per_connection) := by
  unfold applyJob isSyncSucceeded
  repeat' split
  all_goals simp_all

set_option maxHeartbeats 1000000 in
theorem applyJob_failedPerConn (p : ParseFns) (a : JobAcc) (j : Job) :
    (applyJob p a j).failed_syncs_per_connection
      = (if j.jobType == some "sync" && j.status == some "failed"
         then bump a.failed_syncs_per_connection j.connectionId
         else a.failed_syncs_per_connection) := by
  unfold applyJob
  repeat' split
  all_goals simp_all

theorem foldl_add_eq {β : Type} (g : β → Int) (l : List β) :
    ∀ s0 : Int, l.foldl (fun s j => s + g j) s0 = s0 + (l.map g).sum := by
  induction l with
  | nil => intro s0; simp
  | cons x xs ih => intro s0; simp [List.foldl_cons, ih, add_assoc]

theorem foldl_append_eq {β γ : Type} (g : β → List γ) (l : List β) :
    ∀ s0 : List γ, l.foldl (fun s j => s ++ g j) s0 = s0 ++ (l.map g).flatten := by
  induction l with
  | nil => intro s0; simp
  | cons x xs ih => intro s0; simp [List.foldl_cons, ih]

theorem sum_indicator {β : Type} (f : β → Bool) (l : List β) :
    (l.map (fun j => if f j then (1 : Int) else 0)).sum = l.countP f := by
  induction l with
  | nil => simp
  | cons x xs ih =>
    by_cases h : f x = true
    · simp [h, ih, List.countP_cons]
      push_cast
      ring
    · simp [h, ih, List.countP_cons]

theorem sum_ite_filter {β : Type} (f : β → Bool) (g : β → Int) (l : List β) :
    (l.map (fun j => if f j then g j else 0)).sum = ((l.filter f).map g).sum := by
  induction l with
  | nil => simp
  | cons x xs ih =>
    by_cases h : f x = true <;> simp [h, ih, List.filter_cons]

theorem join_ite_toList {β γ : Type} (c : β → Bool) (opt : β → Option γ) (l : List β) :
    (l.map (fun j => if c j then (opt j).toList else [])).flatten
      = l.filterMap (fun j => if c j then opt j else none) := by
  induction l with
  | nil => simp
  | cons x xs ih =>
    by_cases h : c x = true
    · rcases ho : opt x with _ | v <;> simp [h, ho, ih, List.filterMap_cons]
    · simp [h, ih, List.filterMap_cons]

theorem dictGet?_lsStep (p : ParseFns) (m : Dict (Option String) Int) (j : Job)
    (c : Option String) :
    dictGet? (lsStep p m j) c
      = match (if isSyncSucceeded j && truthy j.connectionId && truthy j.lastUpdatedAt
                  && (j.connectionId == c)
               then parse_timestamp p.fromIso (j.lastUpdatedAt.getD "")
               else none) with
        | none => dictGet? m c
        | some ts => mergeMax (dictGet? m c) ts := by
  by_cases hS : (isSyncSucceeded j && (truthy j.connectionId && truthy j.lastUpdatedAt)) = true
  · have hS3 : isSyncSucceeded j = true ∧ truthy j.connectionId = true
        ∧ truthy j.lastUpdatedAt = true := by simpa [Bool.and_eq_true] using hS
    have hsel_eq : (isSyncSucceeded j && truthy j.connectionId && truthy j.lastUpdatedAt
        && (j.connectionId == c)) = (j.connectionId == c) := by
      simp [hS3.1, hS3.2.1, hS3.2.2]
    rcases hts : parse_timestamp p.fromIso (j.lastUpdatedAt.getD "") with _ | ts
    · unfold lsStep
      rw [hsel_eq]
      simp [hS, hts]
    · by_cases hc : j.connectionId = c
      · subst hc
        unfold lsStep
        rw [hsel_eq]
        simp [hS, hts, dictGet?_lastSyncSet]
      · have hbc : (j.connectionId == c) = false := by
          simpa using hc
        unfold lsStep
        rw [hsel_eq, hbc]
        simp [hS, hts, dictGet?_lastSyncSet, Ne.symm hc]
  · have hsel : (isSyncSucceeded j && truthy j.connectionId && truthy j.lastUpdatedAt
        && (j.connectionId == c)) = false := by
      cases hA : isSyncSucceeded j with
      | false => simp [hA]
      | true =>
        cases hB : truthy j.connectionId with
        | false => simp [hB]
        | true =>
          cases hC : truthy j.lastUpdatedAt with
          | false => simp [hC]
          | true => exact absurd (by simp [hA, hB, hC]) hS
    unfold lsStep
    rw [hsel]
    simp [hS]

theorem dictGet?_foldl_lsStep (p : ParseFns) (c : Option String) (l : List Job) :
    ∀ m : Dict (Option String) Int,
      dictGet? (l.foldl (lsStep p) m) c
        = (syncSuccTimestamps p c l).foldl mergeMax (dictGet? m c) := by
  induction l with
  | nil => intro m; simp [syncSuccTimestamps]
  | cons j rest ih =>
    intro m
    simp only [List.foldl_cons, syncSuccTimestamps, List.filterMap_cons]
    rcases hsel : (if isSyncSucceeded j && truthy j.connectionId && truthy j.lastUpdatedAt
            && (j.connectionId == c)
         then parse_timestamp p.fromIso (j.lastUpdatedAt.getD "")
         else none) with _ | ts
    · have hm : dictGet? (lsStep p m j) c = dictGet? m c := by
        rw [dictGet?_lsStep, hsel]
      rw [ih, hm]
      simp [syncSuccTimestamps]
    · have hm : dictGet? (lsStep p m j) c = mergeMax (dictGet? m c) ts := by
        rw [dictGet?_lsStep, hsel]
      rw [ih, hm]
      simp [syncSuccTimestamps]

theorem foldl_mergeMax_spec (l : List Int) :
    ∀ (o : Option Int) (t : Int), l.foldl mergeMax o = some t →
      (o = some t ∨ t ∈ l) ∧ (∀ u ∈ l, u ≤ t) ∧ (∀ b, o = some b → b ≤ t) := by
  induction l with
  | nil =>
    intro o t h
    simp only [List.foldl_nil] at h
    refine ⟨Or.inl h, by simp, fun b hb => ?_⟩
    rw [h] at hb
    exact ge_of_eq (Option.some.inj hb)
  | cons x xs ih =>
    intro o t h
    simp only [List.foldl_cons] at h
    obtain ⟨h1, h2, h3⟩ := ih (mergeMax o x) t h
    rcases o with _ | a
    · have hxt : x ≤ t := h3 x rfl
      refine ⟨?_, ?_, by simp⟩
      · rcases h1 with h1 | h1
        · right
          have hx : x = t := Option.some.inj h1
          exact hx ▸ List.mem_cons_self x xs
        · right; exact List.mem_cons_of_mem _ h1
      · intro u hu
        rcases List.mem_cons.mp hu with rfl | hu
        · exact hxt
        · exact h2 u hu
    · have hm : mergeMax (some a) x = some (if x > a then x else a) := rfl
      have hmt : (if x > a then x else a) ≤ t := h3 _ hm
      have hxt : x ≤ t := by by_cases hxa : x > a <;> simp [hxa] at hmt <;> omega
      have hat : a ≤ t := by by_cases hxa : x > a <;> simp [hxa] at hmt <;> omega
      refine ⟨?_, ?_, ?_⟩
      · rcases h1 with h1 | h1
        · rw [hm] at h1
          have ht := Option.some.inj h1
          by_cases hxa : x > a
          · right
            rw [if_pos hxa] at ht
            exact ht ▸ List.mem_cons_self x xs
          · left
            rw [if_neg hxa] at ht
            rw [ht]
        · right; exact List.mem_cons_of_mem _ h1
      · intro u hu
        rcases List.mem_cons.mp hu with rfl | hu
        · exact hxt
        · exact h2 u hu
      · intro b hb
        exact (Option.some.inj hb) ▸ hat

theorem countP_three_statuses (l : List Job) :
    l.countP (fun j => j.status == some "running")
      + l.countP (fun j => j.status == some "pending")
      + l.countP (fun j => j.status == some "failed")
    = l.countP (fun j =>
        j.status == some "running" || j.status == some "pending" || j.status == some "failed") := by
  induction l with
  | nil => simp
  | cons j rest ih =>
    rcases hjs : j.status with _ | s
    · simp [List.countP_cons, hjs, ih]
    · simp only [List.countP_cons, hjs]
      by_cases hr : s = "running" <;> by_cases hp : s = "pending" <;> by_cases hf : s = "failed" <;>
        simp_all <;> omega

theorem foldl_processConnection_names (conns : List Connection) :
    ∀ a : ConnAcc,
      (conns.foldl processConnection a).names
        = conns.foldl (fun m c => dictSet m c.connectionId (c.name.getD "unknown")) a.names := by
  induction conns with
  | nil => intro a; simp
  | cons c rest ih =>
    intro a
    simp only [List.foldl_cons, ih]
    rfl

theorem update_connection_metrics_names (prev : NameMap) (conns : List Connection) :
    (update_connection_metrics prev conns).1 = buildNames conns := by
  unfold update_connection_metrics buildNames
  simp [foldl_processConnection_names]

theorem dictGet?_insName_fold (conns : List Connection) :
    ∀ (m : NameMap) (k : Option String),
      (dictGet? (conns.foldl (fun m c => dictSet m c.connectionId (c.name.getD "unknown")) m) k
          = none)
        ↔ (dictGet? m k = none ∧ ∀ c ∈ conns, c.connectionId ≠ k) := by
  induction conns with
  | nil => simp
  | cons c rest ih =>
    intro m k
    simp only [List.foldl_cons, ih, dictGet?_dictSet]
    by_cases h : k = c.connectionId
    · subst h
      simp
    · simp [h]
      exact fun _ _ hh => h hh.symm

theorem buildNames_unknown (conns : List Connection) (k : Option String)
    (h : ∀ c ∈ conns, c.connectionId ≠ k) :
    nameFor (buildNames conns) k = "unknown" := by
  unfold nameFor
  have : dictGet? (buildNames conns) k = none := by
    unfold buildNames
    rw [dictGet?_insName_fold]
    exact ⟨rfl, h⟩
  rw [this]
  rfl

theorem mem_keys_dictSet {κ α : Type} [DecidableEq κ] (m : Dict κ α) (k x : κ) (v : α) :
    x ∈ (dictSet m k v).map Prod.fst ↔ x = k ∨ x ∈ m.map Prod.fst := by
  induction m with
  | nil => simp [dictSet]
  | cons e rest ih =>
    obtain ⟨k0, v0⟩ := e
    by_cases h : k0 = k
    · subst h
      simp [dictSet]
    · simp only [dictSet, if_neg h, List.map_cons, List.mem_cons, ih]
      tauto

theorem keys_nodup_dictSet {κ α : Type} [DecidableEq κ] (m : Dict κ α) (k : κ) (v : α)
    (h : (m.map Prod.fst).Nodup) : ((dictSet m k v).map Prod.fst).Nodup := by
  induction m with
  | nil => simp [dictSet]
  | cons e rest ih =>
    obtain ⟨k0, v0⟩ := e
    simp only [List.map_cons, List.nodup_cons] at h
    by_cases hk : k0 = k
    · subst hk
      simpa [dictSet] using h
    · simp only [dictSet, if_neg hk, List.map_cons, List.nodup_cons, mem_keys_dictSet]
      exact ⟨by rintro (rfl | hmem) <;> [exact hk rfl; exact h.1 hmem], ih h.2⟩

theorem buildNames_keys_nodup (conns : List Connection) :
    ((buildNames conns).map Prod.fst).Nodup := by
  unfold buildNames
  have h : ∀ (m : NameMap), (m.map Prod.fst).Nodup →
      ((conns.foldl (fun m c => dictSet m c.connectionId (c.name.getD "unknown")) m).map
        Prod.fst).Nodup := by
    induction conns with
    | nil => intro m hm; simpa using hm
    | cons c rest ih =>
      intro m hm
      exact ih _ (keys_nodup_dictSet m _ _ hm)
  exact h [] (by simp)

theorem mem_keys_buildNames (conns : List Connection) (k : Option String) :
    k ∈ (buildNames conns).map Prod.fst ↔ ∃ c ∈ conns, c.connectionId = k := by
  unfold buildNames
  have h : ∀ (m : NameMap),
      (k ∈ (conns.foldl (fun m c => dictSet m c.connectionId (c.name.getD "unknown")) m).map
          Prod.fst)
        ↔ (k ∈ m.map Prod.fst ∨ ∃ c ∈ conns, c.connectionId = k) := by
    induction conns with
    | nil => intro m; simp
    | cons c rest ih =>
      intro m
      simp only [List.foldl_cons, ih, mem_keys_dictSet]
      constructor
      · rintro ((H | H) | H)
        · right; exact ⟨c, by simp, H.symm⟩
        · left; exact H
        · right; obtain ⟨c', hc', hk⟩ := H; exact ⟨c', by simp [hc'], hk⟩
      · rintro (H | ⟨c', hc', hk⟩)
        · left; right; exact H
        · rcases List.mem_cons.mp hc' with rfl | hc'
          · left; left; exact hk.symm
          · right; exact ⟨c', hc', hk⟩
  rw [h []]
  simp

theorem update_job_metrics_eq (p : ParseFns) (names : NameMap) (jobs : List Job) :
    update_job_metrics p names jobs
      = if jobs.all (jobOk p)
        then some (finalizeJobMetrics names (jobs.foldl (applyJob p) {}))
        else none := by
  unfold update_job_metrics
  rw [runJobs_eq]
  by_cases h : jobs.all (jobOk p) = true <;> simp [h]

theorem update_job_metrics_some (p : ParseFns) (names : NameMap) (jobs : List Job)
    (m : JobMetricsOut) (hm : update_job_metrics p names jobs = some m) :
    jobs.all (jobOk p) = true ∧ m = finalizeJobMetrics names (jobs.foldl (applyJob p) {}) := by
  rw [update_job_metrics_eq] at hm
  by_cases h : jobs.all (jobOk p) = true
  · rw [if_pos (by simpa using h)] at hm
    exact ⟨h, (Option.some.inj hm).symm⟩
  · rw [if_neg (by simpa using h)] at hm
    exact absurd hm (by simp)

theorem foldl_running_count (p : ParseFns) (jobs : List Job) :
    (jobs.foldl (applyJob p) {}).running_jobs
      = (jobs.countP (fun j => j.status == some "running") : Int) := by
  rw [foldl_applyJob_proj p (fun a => a.running_jobs)
      (fun s j => s + (if j.status == some "running" then (1 : Int) else 0))
      (fun a j => applyJob_running p a j) jobs {}]
  rw [foldl_add_eq, sum_indicator]
  simp

theorem foldl_pending_count (p : ParseFns) (jobs : List Job) :
    (jobs.foldl (applyJob p) {}).pending_jobs
      = (jobs.countP (fun j => j.status == some "pending") : Int) := by
  rw [foldl_applyJob_proj p (fun a => a.pending_jobs)
      (fun s j => s + (if j.status == some "pending" then (1 : Int) else 0))
      (fun a j => applyJob_pending p a j) jobs {}]
  rw [foldl_add_eq, sum_indicator]
  simp

theorem foldl_failures_count (p : ParseFns) (jobs : List Job) :
    (jobs.foldl (applyJob p) {}).workflow_failures
      = (jobs.countP (fun j => j.status == some "failed") : Int) := by
  rw [foldl_applyJob_proj p (fun a => a.workflow_failures)
      (fun s j => s + (if j.status == some "failed" then (1 : Int) else 0))
      (fun a j => applyJob_failures p a j) jobs {}]
  rw [foldl_add_eq, sum_indicator]
  simp

theorem foldl_bytes_sum (p : ParseFns) (jobs : List Job) :
    (jobs.foldl (applyJob p) {}).total_bytes_synced
      = ((jobs.filter (fun j => isSyncSucceeded j)).map (fun j => j.bytesSynced.getD 0)).sum := by
  rw [foldl_applyJob_proj p (fun a => a.total_bytes_synced)
      (fun s j => s + (if isSyncSucceeded j then j.bytesSynced.getD 0 else 0))
      (fun a j => applyJob_bytes p a j) jobs {}]
  rw [foldl_add_eq, sum_ite_filter]
  simp

theorem foldl_rows_sum (p : ParseFns) (jobs : List Job) :
    (jobs.foldl (applyJob p) {}).total_rows_synced
      = ((jobs.filter (fun j => isSyncSucceeded j)).map (fun j => j.rowsSynced.getD 0)).sum := by
  rw [foldl_applyJob_proj p (fun a => a.total_rows_synced)
      (fun s j => s + (if isSyncSucceeded j then j.rowsSynced.getD 0 else 0))
      (fun a j => applyJob_rows p a j) jobs {}]
  rw [foldl_add_eq, sum_ite_filter]
  simp

theorem foldl_durations_eq (p : ParseFns) (jobs : List Job) :
    (jobs.foldl (applyJob p) {}).successful_sync_durations = syncSuccDurations p jobs := by
  rw [foldl_applyJob_proj p (fun a => a.successful_sync_durations)
      (fun s j => s ++ (if isSyncSucceeded j && truthy j.duration
          then (p.parseDuration (j.duration.getD "")).toList else []))
      (fun a j => applyJob_durations p a j) jobs {}]
  rw [foldl_append_eq, join_ite_toList]
  simp [syncSuccDurations]

theorem foldl_lastSync_eq (p : ParseFns) (jobs : List Job) :
    (jobs.foldl (applyJob p) {}).last_successful_sync = jobs.foldl (lsStep p) [] := by
  rw [foldl_applyJob_proj p (fun a => a.last_successful_sync) (lsStep p)
      (fun a j => applyJob_lastSync p a j) jobs {}]

/-! Claim theorems. -/

/-- C1: for every job list accepted by the aggregator, the three scalar
gauges for running, pending and failed jobs count exactly the jobs with
that status; the three predicates are mutually exclusive, so the three
counters together count each such job exactly once and jobs with any
other status (succeeded included) contribute to none of them. -/
theorem claim_C1 (p : ParseFns) (names : NameMap) (jobs : List Job) (m : JobMetricsOut)
    (hm : update_job_metrics p names jobs = some m) :
    m.num_running_jobs = (jobs.countP (fun j => j.status == some "running") : Int)
    ∧ m.num_pending_jobs = (jobs.countP (fun j => j.status == some "pending") : Int)
    ∧ m.temporal_workflow_failure = (jobs.countP (fun j => j.status == some "failed") : Int)
    ∧ m.num_running_jobs + m.num_pending_jobs + m.temporal_workflow_failure
        = (jobs.countP (fun j => j.status == some "running" || j.status == some "pending"
            || j.status == some "failed") : Int) := by
  obtain ⟨hall, rfl⟩ := update_job_metrics_some p names jobs m hm
  refine ⟨?_, ?_, ?_, ?_⟩
  · simp only [finalizeJobMetrics]
    exact foldl_running_count p jobs
  · simp only [finalizeJobMetrics]
    exact foldl_pending_count p jobs
  · simp only [finalizeJobMetrics]
    exact foldl_failures_count p jobs
  · simp only [finalizeJobMetrics]
    rw [foldl_running_count, foldl_pending_count, foldl_failures_count]
    exact_mod_cast countP_three_statuses jobs

/-- C2: for every job list accepted by the aggregator and every
connection id, the last-successful-sync entry for that id is exactly the
maximum of the parsed lastUpdatedAt values over the succeeded sync jobs
of that connection (those carrying both fields); in particular the entry
is an element of that list and an upper bound of it. The labeled gauge
rows are exactly these entries with the name resolved through the index. -/
theorem claim_C2 (p : ParseFns) (names : NameMap) (jobs : List Job) (m : JobMetricsOut)
    (hm : update_job_metrics p names jobs = some m) (c : Option String) :
    dictGet? m.last_successful_sync c = runningMax? (syncSuccTimestamps p c jobs)
    ∧ (∀ t, dictGet? m.last_successful_sync c = some t →
        t ∈ syncSuccTimestamps p c jobs ∧ ∀ u ∈ syncSuccTimestamps p c jobs, u ≤ t)
    ∧ m.last_successful_sync_timestamp
        = m.last_successful_sync.map (fun e => (e.1, nameFor names e.1, e.2)) := by
  obtain ⟨hall, rfl⟩ := update_job_metrics_some p names jobs m hm
  have hmap : (finalizeJobMetrics names (jobs.foldl (applyJob p) {})).last_successful_sync
      = jobs.foldl (lsStep p) [] := by
    simp only [finalizeJobMetrics]
    exact foldl_lastSync_eq p jobs
  refine ⟨?_, ?_, ?_⟩
  · rw [hmap, dictGet?_foldl_lsStep]
    rfl
  · intro t ht
    rw [hmap, dictGet?_foldl_lsStep] at ht
    have hspec := foldl_mergeMax_spec (syncSuccTimestamps p c jobs) (dictGet? ([] : Dict (Option String) Int) c) t ht
    refine ⟨?_, hspec.2.1⟩
    rcases hspec.1 with h | h
    · exact absurd h (by simp [dictGet?])
    · exact h
  · simp only [finalizeJobMetrics]

/-- C3: for every job list accepted by the aggregator, the
average-duration gauge is 0 when no succeeded sync job carries a
(truthy) duration field, and otherwise is the arithmetic mean of the
parsed duration values collected from exactly those jobs. -/
theorem claim_C3 (p : ParseFns) (names : NameMap) (jobs : List Job) (m : JobMetricsOut)
    (hm : update_job_metrics p names jobs = some m) :
    ((∀ j ∈ jobs, isSyncSucceeded j = true → truthy j.duration = false) →
        m.avg_successful_sync_duration = 0)
    ∧ m.avg_successful_sync_duration
        = (if syncSuccDurations p jobs = [] then 0
           else (syncSuccDurations p jobs).sum / ((syncSuccDurations p jobs).length : Rat)) := by
  obtain ⟨hall, rfl⟩ := update_job_metrics_some p names jobs m hm
  have havg : (finalizeJobMetrics names (jobs.foldl (applyJob p) {})).avg_successful_sync_duration
      = (if syncSuccDurations p jobs = [] then 0
         else (syncSuccDurations p jobs).sum / ((syncSuccDurations p jobs).length : Rat)) := by
    simp only [finalizeJobMetrics, foldl_durations_eq]
    by_cases h : syncSuccDurations p jobs = [] <;> simp [h]
  refine ⟨?_, havg⟩
  intro hnone
  rw [havg]
  have : syncSuccDurations p jobs = [] := by
    unfold syncSuccDurations
    rw [List.filterMap_eq_nil]
    intro j hj
    by_cases hs : isSyncSucceeded j = true
    · simp [hs, hnone j hj hs]
    · simp [Bool.eq_false_iff.mpr hs]
  simp [this]

/-- C6: for every job list accepted by the aggregator, the total bytes
and rows gauges are the sums of bytesSynced and rowsSynced (a missing
field counting 0) over exactly the succeeded sync jobs. -/
theorem claim_C6 (p : ParseFns) (names : NameMap) (jobs : List Job) (m : JobMetricsOut)
    (hm : update_job_metrics p names jobs = some m) :
    m.total_bytes_synced
      = ((jobs.filter (fun j => isSyncSucceeded j)).map (fun j => j.bytesSynced.getD 0)).sum
    ∧ m.total_rows_synced
      = ((jobs.filter (fun j => isSyncSucceeded j)).map (fun j => j.rowsSynced.getD 0)).sum := by
  obtain ⟨hall, rfl⟩ := update_job_metrics_some p names jobs m hm
  constructor
  · simp only [finalizeJobMetrics]
    exact foldl_bytes_sum p jobs
  · simp only [finalizeJobMetrics]
    exact foldl_rows_sum p jobs

/-- C10: a succeeded sync job missing its connectionId or its
lastUpdatedAt (in the Python truthiness sense) is still counted in the
successful-syncs total, in the per-connection succeeded-count dict and
in the bytes and rows sums, but adds no entry to the
last-successful-sync dict, so no timestamp gauge row is emitted for it. -/
theorem claim_C10 (p : ParseFns) (names : NameMap) (jobs : List Job) (j : Job)
    (m : JobMetricsOut)
    (hty : j.jobType = some "sync") (hst : j.status = some "succeeded")
    (hmiss : truthy j.connectionId = false ∨ truthy j.lastUpdatedAt = false)
    (hok : jobOk p j = true)
    (hm : update_job_metrics p names jobs = some m) :
    ∃ m', update_job_metrics p names (jobs ++ [j]) = some m'
      ∧ m'.num_successful_syncs = m.num_successful_syncs + 1
      ∧ m'.successful_syncs_per_connection
          = bump m.successful_syncs_per_connection j.connectionId
      ∧ m'.total_bytes_synced = m.total_bytes_synced + j.bytesSynced.getD 0
      ∧ m'.total_rows_synced = m.total_rows_synced + j.rowsSynced.getD 0
      ∧ m'.last_successful_sync = m.last_successful_sync
      ∧ m'.last_successful_sync_timestamp = m.last_successful_sync_timestamp := by
  obtain ⟨hall, rfl⟩ := update_job_metrics_some p names jobs m hm
  have hsync : isSyncSucceeded j = true := by simp [isSyncSucceeded, hty, hst]
  have hall2 : ((jobs ++ [j]).all (jobOk p)) = true := by
    simp [List.all_append, hall, hok]
  have hfold : (jobs ++ [j]).foldl (applyJob p) ({} : JobAcc)
      = applyJob p (jobs.foldl (applyJob p) {}) j := by
    rw [List.foldl_append]
    rfl
  have hls : lsStep p (jobs.foldl (applyJob p) ({} : JobAcc)).last_successful_sync j
      = (jobs.foldl (applyJob p) ({} : JobAcc)).last_successful_sync := by
    unfold lsStep
    rcases hmiss with h | h <;> simp [h]
  refine ⟨finalizeJobMetrics names ((jobs ++ [j]).foldl (applyJob p) {}),
    ?_, ?_, ?_, ?_, ?_, ?_, ?_⟩
  · rw [update_job_metrics_eq, if_pos (by simpa using hall2)]
  · simp [finalizeJobMetrics, hfold, applyJob_succ, hsync]
  · simp [finalizeJobMetrics, hfold, applyJob_succPerConn, hsync]
  · simp [finalizeJobMetrics, hfold, applyJob_bytes, hsync]
  · simp [finalizeJobMetrics, hfold, applyJob_rows, hsync]
  · simp [finalizeJobMetrics, hfold, applyJob_lastSync, hls]
  · simp [finalizeJobMetrics, hfold, applyJob_lastSync, hls]

set_option maxHeartbeats 4000000 in
/-- C4 counterexample: a list holding one succeeded sync job with a
malformed lastUpdatedAt followed by a running job. The claim requires
the running-jobs gauge derived from the second job still to be written,
but the aggregator raises on the first job and writes no gauge at all:
the whole update evaluates to none. -/
theorem claim_C4_counterexample :
    update_job_metrics pW namesW [jWbad, jW3] = none := rfl

/-- C4 amended: a malformed lastUpdatedAt or duration on any job of the
list (any job the per-job parse check rejects) aborts the whole
job-metrics update: the exception propagates out of the loop, no job
gauge is written at all, and the remaining jobs are not processed. -/
theorem claim_C4_amended (p : ParseFns) (names : NameMap) (jobs : List Job)
    (h : ∃ j ∈ jobs, jobOk p j = false) :
    update_job_metrics p names jobs = none := by
  rw [update_job_metrics_eq]
  obtain ⟨j, hj, hfalse⟩ := h
  have hnall : ¬ (jobs.all (jobOk p) = true) := by
    intro hall
    rw [List.all_eq_true] at hall
    have := hall j hj
    rw [hfalse] at this
    exact Bool.false_ne_true this
  rw [if_neg (by simpa using hnall)]

set_option maxHeartbeats 4000000 in
/-- C4 amended witness: the sample malformed job aborts the sample list. -/
theorem claim_C4_amended_witness :
    jobOk pW jWbad = false
    ∧ update_job_metrics pW namesW [jWbad, jW3] = none :=
  ⟨rfl, claim_C4_amended pW namesW [jWbad, jW3] ⟨jWbad, by simp, rfl⟩⟩

/-- C7: the token getter attempts a credential exchange exactly when no
token is held (Python truthiness) or the current time has reached expiry
minus 60 seconds; with expiry 30 seconds away a refresh is triggered,
with expiry 120 seconds away and a held token none occurs, and a
successful exchange installs the new token with expiry now plus
expires_in. -/
theorem claim_C7 (st : TokenState) (now : Rat) :
    (refresh_token_if_needed st now none = none
        ↔ (truthy st.current_token = false ∨ st.token_expiry - 60 ≤ now))
    ∧ (∀ t e, needs_refresh st now = true →
        refresh_token_if_needed st now (some (t, e))
          = some { current_token := some t, token_expiry := now + e })
    ∧ (needs_refresh st now = false →
        ∀ ex, refresh_token_if_needed st now ex = some st)
    ∧ (st.token_expiry = now + 30 → needs_refresh st now = true)
    ∧ (st.token_expiry = now + 120 → truthy st.current_token = true →
        needs_refresh st now = false) := by
  have hiff : needs_refresh st now = true
      ↔ (truthy st.current_token = false ∨ st.token_expiry - 60 ≤ now) := by
    unfold needs_refresh
    simp [Bool.or_eq_true]
  refine ⟨?_, ?_, ?_, ?_, ?_⟩
  · constructor
    · intro h
      by_cases hn : needs_refresh st now = true
      · exact hiff.mp hn
      · rw [refresh_token_if_needed, if_neg (by simpa using hn)] at h
        exact absurd h (by simp)
    · intro h
      rw [refresh_token_if_needed, if_pos (by simpa using hiff.mpr h)]
      rfl
  · intro t e h
    rw [refresh_token_if_needed, if_pos (by simpa using h)]
    rfl
  · intro h ex
    rw [refresh_token_if_needed, if_neg (by simp [h])]
  · intro h
    have hle : st.token_expiry - 60 ≤ now := by rw [h]; linarith
    unfold needs_refresh
    simp [hle]
  · intro h htr
    have hle : ¬ (st.token_expiry - 60 ≤ now) := by rw [h]; intro hc; linarith
    simp [needs_refresh, htr, hle]

/-- C8: the fetch wrapper returns the list under the data field of a 2xx
JSON body, and the empty list on a network fault or non-2xx status or a
body without a data field; the function is total, so no endpoint failure
propagates an exception to its caller. -/
theorem claim_C8 {α : Type} (r : HttpResult α) :
    (∀ l, r = HttpResult.ok (some l) → fetch_airbyte_data r = l)
    ∧ (r = HttpResult.err → fetch_airbyte_data r = [])
    ∧ (r = HttpResult.ok none → fetch_airbyte_data r = [])
    ∧ (∀ e, fetch_attempt r = Except.error e → fetch_airbyte_data r = []) := by
  refine ⟨?_, ?_, ?_, ?_⟩
  · rintro l rfl; rfl
  · rintro rfl; rfl
  · rintro rfl; rfl
  · intro e he
    rcases r with _ | body
    · rfl
    · exact absurd he (by simp [fetch_attempt])

/-- C9: one poll step is a total function, so no fault escapes to the
loop; a token refresh failure aborts the whole step leaving the state
untouched; a failure inside the job aggregator leaves job, destination
and source gauges untouched; and the loop always continues with the next
input after a step. -/
theorem claim_C9 (p : ParseFns) (st : PollState) (i : StepInput)
    (inputs : List StepInput) :
    run_poll p st (i :: inputs) = run_poll p (fetch_airbyte_metrics p st i) inputs
    ∧ (needs_refresh st.token_state i.now = true → i.exchange = none →
        fetch_airbyte_metrics p st i = st)
    ∧ (∀ tok1, refresh_token_if_needed st.token_state i.now i.exchange = some tok1 →
        update_job_metrics p (buildNames (fetch_airbyte_data i.connsResp))
          (fetch_airbyte_data i.jobsResp) = none →
        (fetch_airbyte_metrics p st i).jobGauges = st.jobGauges
        ∧ (fetch_airbyte_metrics p st i).num_destinations = st.num_destinations
        ∧ (fetch_airbyte_metrics p st i).num_sources = st.num_sources) := by
  refine ⟨rfl, ?_, ?_⟩
  · intro h1 h2
    simp [fetch_airbyte_metrics, refresh_token_if_needed, h1, h2, get_new_token]
  · intro tok1 href hnone
    unfold fetch_airbyte_metrics
    rw [href]
    simp only [update_connection_metrics_names, hnone]
    exact ⟨trivial, trivial, trivial⟩

/-- C5: the connection-name index is rebuilt from scratch by the
connection aggregator (the previous content is discarded), holds exactly
one entry per connection id of the current list, is the index the job
aggregator of the same poll step reads, and resolves every id absent
from the current list to the name unknown. -/
theorem claim_C5 (prev : NameMap) (conns : List Connection) (p : ParseFns)
    (st : PollState) (i : StepInput) (tok1 : TokenState)
    (href : refresh_token_if_needed st.token_state i.now i.exchange = some tok1) :
    (update_connection_metrics prev conns).1 = buildNames conns
    ∧ ((buildNames conns).map Prod.fst).Nodup
    ∧ (∀ k, k ∈ (buildNames conns).map Prod.fst ↔ ∃ c ∈ conns, c.connectionId = k)
    ∧ (fetch_airbyte_metrics p st i).connection_names
        = buildNames (fetch_airbyte_data i.connsResp)
    ∧ (fetch_airbyte_metrics p st i).jobGauges
        = (update_job_metrics p (buildNames (fetch_airbyte_data i.connsResp))
            (fetch_airbyte_data i.jobsResp)).getD st.jobGauges
    ∧ (∀ k, (∀ c ∈ conns, c.connectionId ≠ k) → nameFor (buildNames conns) k = "unknown") := by
  refine ⟨update_connection_metrics_names prev conns, buildNames_keys_nodup conns,
    fun k => mem_keys_buildNames conns k, ?_, ?_, fun k h => buildNames_unknown conns k h⟩
  · unfold fetch_airbyte_metrics
    rw [href]
    rcases hj : update_job_metrics p
        (buildNames (fetch_airbyte_data i.connsResp)) (fetch_airbyte_data i.jobsResp)
      with _ | jm
    · simp only [update_connection_metrics_names, hj]
    · simp only [update_connection_metrics_names, hj]
  · unfold fetch_airbyte_metrics
    rw [href]
    rcases hj : update_job_metrics p
        (buildNames (fetch_airbyte_data i.connsResp)) (fetch_airbyte_data i.jobsResp)
      with _ | jm
    · simp only [update_connection_metrics_names, hj, Option.getD]
    · simp only [update_connection_metrics_names, hj, Option.getD]

/-! Witnesses: each hypothesis of a claim theorem discharged at concrete
sample data. -/

set_option maxHeartbeats 4000000 in
/-- C1 witness: on the sample list the counts are 1, 1 and 1. -/
theorem claim_C1_witness :
    update_job_metrics pW namesW jobsW = some mW
    ∧ mW.num_running_jobs = (jobsW.countP (fun j => j.status == some "running") : Int)
    ∧ mW.num_running_jobs = 1 ∧ mW.num_pending_jobs = 1 ∧ mW.temporal_workflow_failure = 1 :=
  ⟨rfl, (claim_C1 pW namesW jobsW mW rfl).1, rfl, rfl, rfl⟩

set_option maxHeartbeats 4000000 in
/-- C2 witness: two succeeded sync jobs for c1 with timestamps
1672531200 and 1672531300 yield the larger one. -/
theorem claim_C2_witness :
    update_job_metrics pW namesW jobsW = some mW
    ∧ dictGet? mW.last_successful_sync (some "c1")
        = runningMax? (syncSuccTimestamps pW (some "c1") jobsW)
    ∧ dictGet? mW.last_successful_sync (some "c1") = some 1672531300 :=
  ⟨rfl, (claim_C2 pW namesW jobsW mW rfl (some "c1")).1, rfl⟩

set_option maxHeartbeats 4000000 in
/-- C3 witness: the sample average is the mean of the collected list. -/
theorem claim_C3_witness :
    update_job_metrics pW namesW jobsW = some mW
    ∧ mW.avg_successful_sync_duration
        = (if syncSuccDurations pW jobsW = [] then 0
           else (syncSuccDurations pW jobsW).sum / ((syncSuccDurations pW jobsW).length : Rat)) :=
  ⟨rfl, (claim_C3 pW namesW jobsW mW rfl).2⟩

set_option maxHeartbeats 4000000 in
/-- C6 witness: the sample sums are 100 + 5 bytes and 10 + 1 rows. -/
theorem claim_C6_witness :
    update_job_metrics pW namesW jobsW = some mW
    ∧ mW.total_bytes_synced
        = ((jobsW.filter (fun j => isSyncSucceeded j)).map (fun j => j.bytesSynced.getD 0)).sum
    ∧ mW.total_bytes_synced = 105 ∧ mW.total_rows_synced = 11 :=
  ⟨rfl, (claim_C6 pW namesW jobsW mW rfl).1, rfl, rfl⟩

set_option maxHeartbeats 4000000 in
/-- C10 witness: the sample succeeded sync job with no connectionId is
counted everywhere except the timestamp map. -/
theorem claim_C10_witness :
    truthy jWmiss.connectionId = false
    ∧ jobOk pW jWmiss = true
    ∧ update_job_metrics pW namesW jobsW = some mW
    ∧ (∃ m', update_job_metrics pW namesW (jobsW ++ [jWmiss]) = some m'
        ∧ m'.num_successful_syncs = mW.num_successful_syncs + 1
        ∧ m'.successful_syncs_per_connection
            = bump mW.successful_syncs_per_connection jWmiss.connectionId
        ∧ m'.total_bytes_synced = mW.total_bytes_synced + jWmiss.bytesSynced.getD 0
        ∧ m'.total_rows_synced = mW.total_rows_synced + jWmiss.rowsSynced.getD 0
        ∧ m'.last_successful_sync = mW.last_successful_sync
        ∧ m'.last_successful_sync_timestamp = mW.last_successful_sync_timestamp) :=
  ⟨rfl, rfl, rfl, claim_C10 pW namesW jobsW jWmiss mW rfl rfl (Or.inl rfl) rfl rfl⟩

/-- C7 witness: expiry 30 seconds away triggers the exchange, expiry 120
seconds away does not, and a successful exchange installs now plus
expires_in. -/
theorem claim_C7_witness :
    refresh_token_if_needed { current_token := some "tok", token_expiry := (100 : Rat) } 70 none
        = none
    ∧ refresh_token_if_needed { current_token := some "tok", token_expiry := (190 : Rat) } 70 none
        = some { current_token := some "tok", token_expiry := (190 : Rat) }
    ∧ refresh_token_if_needed { current_token := some "tok", token_expiry := (100 : Rat) } 70
        (some ("new", 1000))
        = some { current_token := some "new", token_expiry := 70 + 1000 } := by
  have H1 := claim_C7 { current_token := some "tok", token_expiry := (100 : Rat) } 70
  have H2 := claim_C7 { current_token := some "tok", token_expiry := (190 : Rat) } 70
  refine ⟨?_, ?_, ?_⟩
  · exact H1.1.mpr (Or.inr (by norm_num))
  · refine H2.2.2.1 ?_ none
    simp [needs_refresh, truthy]
    norm_num
  · refine H1.2.1 "new" 1000 ?_
    simp [needs_refresh, truthy]
    norm_num

/-- C8 witness: a 2xx body with a data list is returned as is, a network
fault degrades to the empty list. -/
theorem claim_C8_witness :
    fetch_airbyte_data (HttpResult.ok (some [jW3])) = [jW3]
    ∧ fetch_airbyte_data (HttpResult.err : HttpResult Job) = [] :=
  ⟨(claim_C8 (HttpResult.ok (some [jW3]))).1 [jW3] rfl,
   (claim_C8 (HttpResult.err : HttpResult Job)).2.1 rfl⟩

set_option maxHeartbeats 4000000 in
/-- C9 witness: with no token held and a failing exchange the sample
step leaves the state untouched and the loop moves on. -/
theorem claim_C9_witness :
    needs_refresh st0.token_state i0.now = true
    ∧ i0.exchange = none
    ∧ fetch_airbyte_metrics pW st0 i0 = st0
    ∧ run_poll pW st0 (i0 :: []) = run_poll pW (fetch_airbyte_metrics pW st0 i0) [] :=
  ⟨rfl, rfl, (claim_C9 pW st0 i0 []).2.1 rfl rfl, (claim_C9 pW st0 i0 []).1⟩

/-- C5 witness: the stale entry for the id gone is dropped by the
rebuild and resolves to unknown, while c1 resolves to Foo. -/
theorem claim_C5_witness :
    (update_connection_metrics [(some "gone", "Gone")] [connW]).1 = buildNames [connW]
    ∧ nameFor (buildNames [connW]) (some "gone") = "unknown"
    ∧ nameFor (buildNames [connW]) (some "c1") = "Foo" := by
  have hnr : needs_refresh stA.token_state iA.now = false := by
    simp [needs_refresh, stA, iA, truthy]
    norm_num
  have href : refresh_token_if_needed stA.token_state iA.now iA.exchange
      = some stA.token_state := by
    rw [refresh_token_if_needed, if_neg (by simp [hnr])]
  have H := claim_C5 [(some "gone", "Gone")] [connW] pW stA iA stA.token_state href
  exact ⟨H.1, H.2.2.2.2.2 (some "gone") (by simp [connW]), rfl⟩

end AirbytePrometheus
